import Mathlib

/-!
Verification of the draft-order relay server (`src/server.js`).

The repository holds four successive revisions of a single-endpoint Express
relay, separated in the source file.  The final revision (the specification
baseline) authenticates `POST /create-draft-order` with the `X-Api-Key`
header, validates the body, exchanges client credentials for an upstream
access token with `getShopifyAccessToken`, and forwards one GraphQL
`draftOrderCreate` mutation.  The intermediate revision additionally accepts
`Authorization: Bearer` via `getProvidedKey` / `requireApiKey`; both are
embedded below.

JavaScript runtime values are embedded as `JsValue`, with truthiness,
optional chaining, nullish coalescing and `String(...)` conversion modelled
explicitly.  The two outbound `fetch` calls are modelled by passing the
responses the network would deliver as arguments (`TokenResponse`,
`GraphqlResponse`) and recording the calls the handler performs in an
`OutboundCall` list; `JSON.parse` of the token body is an explicit function
argument, so that "the parser is never invoked" is expressible.  Express
guarantees `req.body` is an object, so body destructuring is embedded as
(non-throwing) field access; non-optional property access on a nullish value
is embedded as a thrown `TypeError` (an `Except` error), caught by the
handler's `try/catch` into a 500 response — in particular the per-item
mapping throws on a nullish item element, before the mutation call.  The
recorded call list accounts for the env-var precheck of the token exchange,
which throws before that `fetch`.  String `.slice` counts Lean
`Char`s where JavaScript counts UTF-16 units; they agree outside astral
code points, and every string a claim touches is ASCII.
-/

namespace GdoOrderApi

/-- A JavaScript runtime value, as far as the relay manipulates them. -/
inductive JsValue where
  | undefined : JsValue
  | null : JsValue
  | bool : Bool → JsValue
  | num : Int → JsValue
  | str : String → JsValue
  | arr : List JsValue → JsValue
  | obj : List (String × JsValue) → JsValue

/-- JavaScript truthiness (`NaN` is not modelled; no claim involves it). -/
def truthy : JsValue → Bool
  | .undefined => false
  | .null => false
  | .bool b => b
  | .num n => n != 0
  | .str s => s != ""
  | .arr _ => true
  | .obj _ => true

/-- Property access `v.k` on a value known not to be nullish: `undefined`
when `v` is not an object or lacks the key. -/
def getField : JsValue → String → JsValue
  | .obj fields, k =>
    match fields.lookup k with
    | some v => v
    | none => .undefined
  | _, _ => .undefined

/-- Optional chaining `v?.k`: `undefined` on a nullish base. -/
def optChainGet (v : JsValue) (k : String) : JsValue :=
  match v with
  | .undefined => .undefined
  | .null => .undefined
  | _ => getField v k

/-- Non-optional property access `v.k`, which throws a `TypeError` when the
base is nullish. -/
def getFieldT (v : JsValue) (k : String) : Except String JsValue :=
  match v with
  | .undefined =>
    .error ("TypeError: Cannot read properties of undefined (reading " ++ k ++ ")")
  | .null =>
    .error ("TypeError: Cannot read properties of null (reading " ++ k ++ ")")
  | _ => .ok (getField v k)

/-- Nullish coalescing `a ?? b`. -/
def nullishCoalesce (a b : JsValue) : JsValue :=
  match a with
  | .undefined => b
  | .null => b
  | _ => a

/-- Destructuring default `const \x7b x = d \x7d = ...`: applies only to
`undefined`, unlike `??`, which also applies to `null`. -/
def undefDefault (v d : JsValue) : JsValue :=
  match v with
  | .undefined => d
  | _ => v

mutual

/-- JavaScript `String(v)` conversion. -/
def jsToString : JsValue → String
  | .undefined => "undefined"
  | .null => "null"
  | .bool b => if b then "true" else "false"
  | .num n => toString n
  | .str s => s
  | .arr l => jsArrToString l
  | .obj _ => "[object Object]"

/-- `Array.prototype.toString`: elements joined with commas. -/
def jsArrToString : List JsValue → String
  | [] => ""
  | [v] => jsElemToString v
  | v :: rest => jsElemToString v ++ "," ++ jsArrToString rest

/-- Array elements render nullish values as the empty string. -/
def jsElemToString : JsValue → String
  | .undefined => ""
  | .null => ""
  | v => jsToString v

end

/-- Truthiness test for `process.env` strings and header values, which are
either absent (`undefined`) or strings: falsy when absent or empty. -/
def falsyOptStr : Option String → Bool
  | none => true
  | some s => s == ""

/-- `Array.isArray(v) && v.length > 0`. -/
def isNonEmptyArray : JsValue → Bool
  | .arr l => !l.isEmpty
  | _ => false

/-- JavaScript `String.prototype.slice(0, n)`. -/
def sliceTo (s : String) (n : Nat) : String := String.mk (s.data.take n)

/-- Does the character list start with the given pattern list? -/
def listStartsWith : List Char → List Char → Bool
  | _, [] => true
  | [], _ :: _ => false
  | a :: as, b :: bs => a == b && listStartsWith as bs

/-- Does `needle` occur as a contiguous run inside the haystack? -/
def listContainsSub (needle : List Char) : List Char → Bool
  | [] => listStartsWith [] needle
  | c :: t => listStartsWith (c :: t) needle || listContainsSub needle t

/-- JavaScript `hay.includes(needle)`. -/
def strIncludes (hay needle : String) : Bool :=
  listContainsSub needle.data hay.data

/-- Environment-sourced configuration.  `process.env` entries are strings or
absent; `SHOPIFY_API_VERSION` is stored after its default is applied. -/
structure Config where
  inboundApiKey : Option String
  shopDomain : Option String
  clientId : Option String
  clientSecret : Option String
  apiVersion : String

/-- The part of an inbound request the handler reads: the two
authentication headers and the parsed JSON body (`express.json` always
yields an object for `req.body`). -/
structure Request where
  xApiKey : Option String
  authorization : Option String
  body : JsValue

/-- A response sent with `res.status(n).json(body)`; `res.json(body)` alone
sends status 200. -/
structure HttpResponse where
  status : Nat
  body : JsValue

/-- What the network delivers for the token-endpoint `fetch`: the status,
the declared `content-type` header (absent or a string) and the body text
read by `resp.text()`. -/
structure TokenResponse where
  status : Nat
  contentType : Option String
  bodyText : String

/-- The fetch `Response.ok` flag: status in the range 200 to 299. -/
def TokenResponse.ok (r : TokenResponse) : Bool :=
  decide (200 ≤ r.status) && decide (r.status ≤ 299)

/-- What the network delivers for the GraphQL mutation `fetch`: the `ok`
flag and the result of `resp.json()` (which throws on a non-JSON body). -/
structure GraphqlResponse where
  ok : Bool
  jsonResult : Except String JsValue

/-- An outbound call the handler performs; the mutation call records the
`variables` object it posts. -/
inductive OutboundCall where
  | tokenExchange : OutboundCall
  | createOrder : JsValue → OutboundCall

/-- The env-var precheck of the final revision's `getShopifyAccessToken`:
when it fires, the function throws before performing its `fetch`, so no
outbound call happens. -/
def shopifyEnvMissing (cfg : Config) : Bool :=
  falsyOptStr cfg.shopDomain || falsyOptStr cfg.clientId ||
    falsyOptStr cfg.clientSecret

/-- `getShopifyAccessToken` of the final revision.  `jsonParse` stands for
the runtime `JSON.parse`; the thrown-error strings are stored in the
`String(e)` form the catch clause would render. -/
def getShopifyAccessToken (cfg : Config) (resp : TokenResponse)
    (jsonParse : String → Except String JsValue) : Except String JsValue :=
  if shopifyEnvMissing cfg then
    .error "Error: Missing Shopify environment variables. Check SHOPIFY_SHOP_DOMAIN, SHOPIFY_CLIENT_ID, SHOPIFY_CLIENT_SECRET."
  else
    let contentType := resp.contentType.getD ""
    let rawText := resp.bodyText
    let dataE : Except String JsValue :=
      if strIncludes contentType "application/json" then jsonParse rawText
      else .ok .null
    match dataE with
    | .error e => .error e
    | .ok data =>
      if !resp.ok then
        .error ("Error: Token request failed: status=" ++ toString resp.status ++
          " contentType=" ++ contentType ++ " preview=" ++ sliceTo rawText 200)
      else if !truthy (optChainGet data "access_token") then
        .error ("Error: Token missing access_token. contentType=" ++ contentType ++
          " preview=" ++ sliceTo rawText 200)
      else
        .ok (getField data "access_token")

/-- The per-item mapping callback `(it) => (\x7b title: it.title, quantity:
it.quantity ?? 1, originalUnitPrice: String(it.price) \x7d)`.  The three
property accesses are non-optional, so a nullish item element throws a
`TypeError` at `it.title` before the others are evaluated. -/
def mapLineItemT (it : JsValue) : Except String JsValue := do
  let title ← getFieldT it "title"
  let quantity ← getFieldT it "quantity"
  let price ← getFieldT it "price"
  pure (.obj [("title", title),
              ("quantity", nullishCoalesce quantity (.num 1)),
              ("originalUnitPrice", .str (jsToString price))])

/-- `items.map(...)` with the throwing callback: the callback runs on the
elements in order and the first thrown `TypeError` propagates, so no
mapped array is produced when any element is nullish. -/
def mapLineItemsT : List JsValue → Except String (List JsValue)
  | [] => .ok []
  | it :: rest => do
    let m ← mapLineItemT it
    let ms ← mapLineItemsT rest
    pure (m :: ms)

/-- The `shippingAddress` object the handler builds from
`shipping_address`. -/
def mapShippingAddress (sa : JsValue) : JsValue :=
  .obj [("firstName", nullishCoalesce (getField sa "firstName") (.str "")),
        ("lastName", nullishCoalesce (getField sa "lastName") (.str "")),
        ("address1", getField sa "address1"),
        ("address2", nullishCoalesce (getField sa "address2") (.str "")),
        ("city", nullishCoalesce (getField sa "city") (.str "")),
        ("province", nullishCoalesce (getField sa "province") (.str "")),
        ("country", nullishCoalesce (getField sa "country") (.str "US")),
        ("zip", nullishCoalesce (getField sa "zip") (.str "")),
        ("phone", nullishCoalesce (getField sa "phone") (.str ""))]

/-- The GraphQL `variables` object posted to the mutation endpoint. -/
def buildVariables (customer shipping_address note tags : JsValue)
    (lineItems : List JsValue) : JsValue :=
  .obj [("input",
    .obj [("email", getField customer "email"),
          ("shippingAddress", mapShippingAddress shipping_address),
          ("note", note),
          ("tags", tags),
          ("lineItems", .arr lineItems)])]

/-- The non-optional chain `data.data.draftOrderCreate.draftOrder` followed
by `draft.id` / `draft.invoiceUrl` and the 200 response body of the success
path; any nullish base on the way throws. -/
def successBody (data : JsValue) : Except String HttpResponse := do
  let dData ← getFieldT data "data"
  let dCreate ← getFieldT dData "draftOrderCreate"
  let draft ← getFieldT dCreate "draftOrder"
  let draftId ← getFieldT draft "id"
  let invoiceUrl ← getFieldT draft "invoiceUrl"
  pure ⟨200, .obj [("draft_order_id", draftId), ("invoice_url", invoiceUrl)]⟩

/-- The portion of the final-revision handler after validation has passed:
token exchange, line-item mapping, the mutation call and the response
classification, together with the outbound calls performed.  A thrown error
anywhere is caught into a 500 response with `details = String(e)`.  When
`getShopifyAccessToken` throws, the token `fetch` has happened unless the
env-var precheck fired first; when the line-item mapping throws on a
nullish element, the mutation `fetch` never happens. -/
def afterValidation (cfg : Config) (customer shipping_address note tags : JsValue)
    (itemList : List JsValue) (tokenResp : TokenResponse)
    (jsonParse : String → Except String JsValue) (gqlResp : GraphqlResponse) :
    HttpResponse × List OutboundCall :=
  match getShopifyAccessToken cfg tokenResp jsonParse with
  | .error e =>
    (⟨500, .obj [("error", .str "Server error"), ("details", .str e)]⟩,
     if shopifyEnvMissing cfg then [] else [.tokenExchange])
  | .ok _accessToken =>
    match mapLineItemsT itemList with
    | .error e =>
      (⟨500, .obj [("error", .str "Server error"), ("details", .str e)]⟩,
       [.tokenExchange])
    | .ok lineItems =>
      let gqlVariables := buildVariables customer shipping_address note tags lineItems
      let calls := [OutboundCall.tokenExchange, OutboundCall.createOrder gqlVariables]
      match gqlResp.jsonResult with
      | .error e =>
        (⟨500, .obj [("error", .str "Server error"), ("details", .str e)]⟩, calls)
      | .ok data =>
        let userErrors :=
          optChainGet (optChainGet (optChainGet data "data") "draftOrderCreate")
            "userErrors"
        if !gqlResp.ok || isNonEmptyArray userErrors then
          (⟨400, .obj [("error", .str "Shopify error creating draft order"),
                       ("details", nullishCoalesce userErrors data)]⟩, calls)
        else
          match successBody data with
          | .ok resp => (resp, calls)
          | .error e =>
            (⟨500, .obj [("error", .str "Server error"), ("details", .str e)]⟩,
             calls)

/-- The final-revision `POST /create-draft-order` handler: `X-Api-Key`
authentication, the three validation checks, then `afterValidation`.
The second component lists the outbound calls performed. -/
def createDraftOrderHandler (cfg : Config) (req : Request)
    (tokenResp : TokenResponse) (jsonParse : String → Except String JsValue)
    (gqlResp : GraphqlResponse) : HttpResponse × List OutboundCall :=
  if falsyOptStr cfg.inboundApiKey || req.xApiKey != cfg.inboundApiKey then
    (⟨401, .obj [("error", .str "Unauthorized")]⟩, [])
  else
    let customer := getField req.body "customer"
    let shipping_address := getField req.body "shipping_address"
    let items := getField req.body "items"
    let tags := undefDefault (getField req.body "tags") (.arr [])
    let note := undefDefault (getField req.body "note") (.str "")
    if !truthy (optChainGet customer "email") then
      (⟨400, .obj [("error", .str "Missing required field: customer.email")]⟩, [])
    else if !truthy (optChainGet shipping_address "address1") then
      (⟨400, .obj [("error",
        .str "Missing required field: shipping_address.address1")]⟩, [])
    else
      match items with
      | .arr itemList =>
        if itemList.length = 0 then
          (⟨400, .obj [("error",
            .str "Missing required field: items (must be a non-empty array)")]⟩,
           [])
        else
          afterValidation cfg customer shipping_address note tags itemList
            tokenResp jsonParse gqlResp
      | _ =>
        (⟨400, .obj [("error",
          .str "Missing required field: items (must be a non-empty array)")]⟩,
         [])

/-- Characters matched by a plain whitespace regex class. -/
def isJsWhitespace (c : Char) : Bool :=
  c == ' ' || c == '\t' || c == '\n' || c == '\r' || c == '\x0b' || c == '\x0c'

/-- Matcher for a leading case-insensitive `Bearer` followed by at least one
whitespace character, returning the remainder after the greedy whitespace
run when it matches. -/
def matchBearerWs : List Char → Option (List Char)
  | c1 :: c2 :: c3 :: c4 :: c5 :: c6 :: rest =>
    if c1.toLower == 'b' && c2.toLower == 'e' && c3.toLower == 'a' &&
        c4.toLower == 'r' && c5.toLower == 'e' && c6.toLower == 'r' then
      match rest with
      | c :: cs =>
        if isJsWhitespace c then some (List.dropWhile isJsWhitespace (c :: cs))
        else none
      | [] => none
    else none
  | _ => none

/-- The `replace` call of `getProvidedKey`, removing a leading
case-insensitive bearer marker and the whitespace after it. -/
def replaceBearer (s : String) : String :=
  match matchBearerWs s.data with
  | some rest => String.mk rest
  | none => s

/-- JavaScript `String.prototype.trim` (over the ASCII whitespace class;
the relay never sees the exotic Unicode space characters JS also trims). -/
def trimStr (s : String) : String :=
  String.mk
    (((s.data.dropWhile isJsWhitespace).reverse.dropWhile isJsWhitespace).reverse)

/-- `getProvidedKey` of the intermediate revision: the `X-Api-Key` header
when truthy, otherwise the trimmed bearer token, otherwise the empty
string (the trailing JavaScript or-with-empty-string collapses into the
string value itself). -/
def getProvidedKey (xApiKey authorization : Option String) : String :=
  let authHeader := authorization.getD ""
  let bearerToken := trimStr (replaceBearer authHeader)
  match xApiKey with
  | some s => if s == "" then bearerToken else s
  | none => bearerToken

/-- `requireApiKey` of the intermediate revision: returns the boolean the
function returns together with the 401 response it sends when rejecting. -/
def requireApiKey (inboundApiKey xApiKey authorization : Option String) :
    Bool × Option HttpResponse :=
  let providedKey := getProvidedKey xApiKey authorization
  if falsyOptStr inboundApiKey || providedKey == "" ||
      inboundApiKey != some providedKey then
    (false, some ⟨401, .obj [("error", .str "Unauthorized")]⟩)
  else
    (true, none)

/-! Helper lemmas shared by the claim proofs. -/

lemma strData_append (a b : String) : (a ++ b).data = a.data ++ b.data := by
  cases a
  cases b
  rfl

lemma listStartsWith_append (xs ys : List Char) :
    listStartsWith (xs ++ ys) xs = true := by
  induction xs with
  | nil => cases ys <;> rfl
  | cons c t ih => simp [listStartsWith, ih]

lemma listContainsSub_of_startsWith (hay needle : List Char)
    (h : listStartsWith hay needle = true) : listContainsSub needle hay = true := by
  cases hay with
  | nil =>
    cases needle with
    | nil => rfl
    | cons c t => simp [listStartsWith] at h
  | cons c t => simp [listContainsSub, h]

lemma listContainsSub_append_left (xs rest needle : List Char)
    (h : listContainsSub needle rest = true) :
    listContainsSub needle (xs ++ rest) = true := by
  induction xs with
  | nil => simpa using h
  | cons c t ih => simp [listContainsSub, ih]

lemma listContainsSub_append_mid (pre needle post : List Char) :
    listContainsSub needle (pre ++ (needle ++ post)) = true := by
  apply listContainsSub_append_left
  exact listContainsSub_of_startsWith _ _ (listStartsWith_append needle post)

lemma strIncludes_append_mid (pre needle post : String) :
    strIncludes (pre ++ (needle ++ post)) needle = true := by
  simp only [strIncludes, strData_append]
  exact listContainsSub_append_mid pre.data needle.data post.data

lemma strIncludes_append_right (pre needle : String) :
    strIncludes (pre ++ needle) needle = true := by
  have h := strIncludes_append_mid pre needle ""
  simpa using h

/-- Rejecting branch of the final-revision authentication check. -/
lemma handler_auth_reject (cfg : Config) (req : Request)
    (tokenResp : TokenResponse) (jsonParse : String → Except String JsValue)
    (gqlResp : GraphqlResponse)
    (h : (falsyOptStr cfg.inboundApiKey || req.xApiKey != cfg.inboundApiKey) = true) :
    createDraftOrderHandler cfg req tokenResp jsonParse gqlResp =
      (⟨401, .obj [("error", .str "Unauthorized")]⟩, []) := by
  simp [createDraftOrderHandler, h]

/-- With authentication and all three validation checks passing, the
handler is `afterValidation` on the destructured body fields. -/
lemma handler_valid_unfold (cfg : Config) (req : Request)
    (tokenResp : TokenResponse) (jsonParse : String → Except String JsValue)
    (gqlResp : GraphqlResponse) (s : String) (its : List JsValue)
    (hc : cfg.inboundApiKey = some s) (hs : s ≠ "")
    (hk : req.xApiKey = some s)
    (he : truthy (optChainGet (getField req.body "customer") "email") = true)
    (ha : truthy (optChainGet (getField req.body "shipping_address") "address1") = true)
    (hi : getField req.body "items" = .arr its) (hne : its ≠ []) :
    createDraftOrderHandler cfg req tokenResp jsonParse gqlResp =
      afterValidation cfg (getField req.body "customer")
        (getField req.body "shipping_address")
        (undefDefault (getField req.body "note") (.str ""))
        (undefDefault (getField req.body "tags") (.arr []))
        its tokenResp jsonParse gqlResp := by
  unfold createDraftOrderHandler
  rw [hc, hk]
  simp [falsyOptStr, hs, he, ha, hi, List.length_eq_zero, hne]

/-- Once the token exchange succeeds and the line-item mapping does not
throw, both outbound calls happen and the mutation call carries the mapped
payload, in every response branch. -/
lemma afterValidation_snd_token_ok (cfg : Config)
    (customer shipping_address note tags : JsValue) (itemList : List JsValue)
    (tokenResp : TokenResponse) (jsonParse : String → Except String JsValue)
    (gqlResp : GraphqlResponse) (tok : JsValue) (mapped : List JsValue)
    (htok : getShopifyAccessToken cfg tokenResp jsonParse = .ok tok)
    (hmap : mapLineItemsT itemList = .ok mapped) :
    (afterValidation cfg customer shipping_address note tags itemList tokenResp
        jsonParse gqlResp).snd =
      [OutboundCall.tokenExchange,
       OutboundCall.createOrder (buildVariables customer shipping_address note
         tags mapped)] := by
  unfold afterValidation
  rw [htok, hmap]
  cases hj : gqlResp.jsonResult with
  | error e => rfl
  | ok data =>
    simp only []
    split
    · rfl
    · split <;> rfl

/-- When the token exchange succeeds but the line-item mapping throws (a
nullish item element), the handler answers 500 with the `TypeError` in the
details and the mutation call never happens. -/
lemma afterValidation_map_error (cfg : Config)
    (customer shipping_address note tags : JsValue) (itemList : List JsValue)
    (tokenResp : TokenResponse) (jsonParse : String → Except String JsValue)
    (gqlResp : GraphqlResponse) (tok : JsValue) (e : String)
    (htok : getShopifyAccessToken cfg tokenResp jsonParse = .ok tok)
    (hmap : mapLineItemsT itemList = .error e) :
    afterValidation cfg customer shipping_address note tags itemList tokenResp
        jsonParse gqlResp =
      (⟨500, .obj [("error", .str "Server error"), ("details", .str e)]⟩,
       [OutboundCall.tokenExchange]) := by
  unfold afterValidation
  rw [htok, hmap]

/-- With the upstream credentials configured, the token exchange is
attempted in every branch after validation. -/
lemma afterValidation_mem_tokenExchange (cfg : Config)
    (customer shipping_address note tags : JsValue) (itemList : List JsValue)
    (tokenResp : TokenResponse) (jsonParse : String → Except String JsValue)
    (gqlResp : GraphqlResponse) (henv : shopifyEnvMissing cfg = false) :
    OutboundCall.tokenExchange ∈
      (afterValidation cfg customer shipping_address note tags itemList
        tokenResp jsonParse gqlResp).snd := by
  unfold afterValidation
  cases ht : getShopifyAccessToken cfg tokenResp jsonParse with
  | error e => simp [henv]
  | ok tok =>
    cases hm : mapLineItemsT itemList with
    | error e => simp
    | ok mapped =>
      cases hj : gqlResp.jsonResult with
      | error e => simp
      | ok data =>
        simp only []
        split
        · simp
        · split <;> simp

/-- What a successful per-item mapping produces: the mapped object built
from the (non-throwing, since the element was not nullish) field reads. -/
lemma mapLineItemT_ok_shape (it m : JsValue) (h : mapLineItemT it = .ok m) :
    m = .obj [("title", getField it "title"),
              ("quantity", nullishCoalesce (getField it "quantity") (.num 1)),
              ("originalUnitPrice", .str (jsToString (getField it "price")))] := by
  cases it <;>
    simp_all [mapLineItemT, getFieldT, bind, Except.bind, pure, Except.pure]

/-! Concrete fixtures used by the witness and counterexample theorems. -/

/-- A fully configured environment with a non-empty inbound secret. -/
def cfgW : Config :=
  ⟨some "secret-key", some "shop.example.myshopify.com", some "cid",
   some "csecret", "2025-10"⟩

/-- A well-formed request body: email, address line one, one item. -/
def bodyW : JsValue :=
  .obj [("customer", .obj [("email", .str "buyer@example.com")]),
        ("shipping_address", .obj [("address1", .str "1 Main St")]),
        ("items", .arr [.obj [("title", .str "Lens"), ("price", .num 150)]])]

/-- An authenticated request carrying `bodyW` in `X-Api-Key` style. -/
def reqW : Request := ⟨some "secret-key", none, bodyW⟩

/-- A successful token-endpoint response. -/
def tokOkW : TokenResponse := ⟨200, some "application/json", "token-body"⟩

/-- The parse of the successful token body. -/
def parseW : String → Except String JsValue :=
  fun _ => .ok (.obj [("access_token", .str "shpat-token")])

/-- The draft order of the successful mutation response. -/
def draftW : JsValue :=
  .obj [("id", .str "gid-draft-1"), ("invoiceUrl", .str "https-invoice-1")]

/-- The `draftOrderCreate` payload of the successful mutation response. -/
def dCreateW : JsValue := .obj [("draftOrder", draftW), ("userErrors", .arr [])]

/-- The parsed body of the successful mutation response. -/
def dataW : JsValue := .obj [("data", .obj [("draftOrderCreate", dCreateW)])]

/-- A successful mutation response carrying an id and an invoice URL. -/
def gqlOkW : GraphqlResponse := ⟨true, .ok dataW⟩

/-- The items of `bodyW`. -/
def itemsW : List JsValue := [.obj [("title", .str "Lens"), ("price", .num 150)]]

/-- A configuration whose inbound shared secret is the empty string. -/
def cfgEmptySecretW : Config :=
  ⟨some "", some "shop.example.myshopify.com", some "cid", some "csecret",
   "2025-10"⟩

/-- A body whose customer object lacks an email. -/
def bodyNoEmailW : JsValue :=
  .obj [("customer", .obj []),
        ("shipping_address", .obj [("address1", .str "1 Main St")]),
        ("items", .arr itemsW)]

/-! The claims. -/

/-- C3: with a configured (truthy) inbound secret, a request whose
`X-Api-Key` header is missing or differs from the secret is answered with
401 `Unauthorized` and no outbound call is performed, whatever the body,
the token endpoint or the mutation endpoint would have said: the
authentication check precedes validation and both `fetch`es. -/
theorem auth_failure_returns_401_no_calls (cfg : Config) (req : Request)
    (tokenResp : TokenResponse) (jsonParse : String → Except String JsValue)
    (gqlResp : GraphqlResponse) (s : String)
    (hc : cfg.inboundApiKey = some s) (hs : s ≠ "")
    (hk : req.xApiKey ≠ some s) :
    createDraftOrderHandler cfg req tokenResp jsonParse gqlResp =
      (⟨401, .obj [("error", .str "Unauthorized")]⟩, []) := by
  apply handler_auth_reject
  rw [hc]
  simp [hk]

/-- Witness for C3: a wrong key against the configured secret. -/
theorem auth_failure_returns_401_no_calls_witness :
    createDraftOrderHandler cfgW ⟨some "wrong-key", none, bodyW⟩ tokOkW parseW
        gqlOkW =
      (⟨401, .obj [("error", .str "Unauthorized")]⟩, []) :=
  auth_failure_returns_401_no_calls cfgW ⟨some "wrong-key", none, bodyW⟩ tokOkW
    parseW gqlOkW "secret-key" rfl (by decide) (by decide)

/-- C8: when the configured inbound secret is unset or empty (falsy), the
final-revision handler rejects every request with 401 and performs no
outbound call, even when the caller supplies an equal (empty) key: the
check `!INBOUND_API_KEY` fires before the key comparison. -/
theorem unconfigured_secret_fails_closed (cfg : Config) (req : Request)
    (tokenResp : TokenResponse) (jsonParse : String → Except String JsValue)
    (gqlResp : GraphqlResponse)
    (h : falsyOptStr cfg.inboundApiKey = true) :
    createDraftOrderHandler cfg req tokenResp jsonParse gqlResp =
      (⟨401, .obj [("error", .str "Unauthorized")]⟩, []) := by
  apply handler_auth_reject
  simp [h]

/-- Witness for C8: an empty configured secret with an equal empty key. -/
theorem unconfigured_secret_fails_closed_witness :
    createDraftOrderHandler cfgEmptySecretW ⟨some "", none, bodyW⟩ tokOkW
        parseW gqlOkW =
      (⟨401, .obj [("error", .str "Unauthorized")]⟩, []) :=
  unconfigured_secret_fails_closed cfgEmptySecretW ⟨some "", none, bodyW⟩
    tokOkW parseW gqlOkW rfl

/-- C2: an authenticated request failing any of the three validation checks
(falsy `customer?.email`, falsy `shipping_address?.address1`, or `items`
not a non-empty array) is answered with status 400 and no outbound call is
performed. -/
theorem validation_failure_returns_400_no_calls (cfg : Config) (req : Request)
    (tokenResp : TokenResponse) (jsonParse : String → Except String JsValue)
    (gqlResp : GraphqlResponse) (s : String)
    (hc : cfg.inboundApiKey = some s) (hs : s ≠ "")
    (hk : req.xApiKey = some s)
    (hval : truthy (optChainGet (getField req.body "customer") "email") = false ∨
      truthy (optChainGet (getField req.body "shipping_address") "address1") = false ∨
      isNonEmptyArray (getField req.body "items") = false) :
    (createDraftOrderHandler cfg req tokenResp jsonParse gqlResp).fst.status = 400 ∧
    (createDraftOrderHandler cfg req tokenResp jsonParse gqlResp).snd = [] := by
  have hauth : (falsyOptStr cfg.inboundApiKey || req.xApiKey != cfg.inboundApiKey)
      = false := by
    rw [hc, hk]
    simp [falsyOptStr, hs]
  rcases hval with hv | hv | hv
  · simp [createDraftOrderHandler, hauth, hv]
  · cases hemail : truthy (optChainGet (getField req.body "customer") "email") <;>
      simp [createDraftOrderHandler, hauth, hv, hemail]
  · cases hemail : truthy (optChainGet (getField req.body "customer") "email") <;>
      cases haddr : truthy (optChainGet (getField req.body "shipping_address")
        "address1") <;>
      cases hitems : getField req.body "items" <;>
      simp_all [createDraftOrderHandler, hauth, isNonEmptyArray,
        List.isEmpty_iff]

/-- Witness for C2: a request whose customer object lacks an email. -/
theorem validation_failure_returns_400_no_calls_witness :
    (createDraftOrderHandler cfgW ⟨some "secret-key", none, bodyNoEmailW⟩
      tokOkW parseW gqlOkW).fst.status = 400 ∧
    (createDraftOrderHandler cfgW ⟨some "secret-key", none, bodyNoEmailW⟩
      tokOkW parseW gqlOkW).snd = [] :=
  validation_failure_returns_400_no_calls cfgW
    ⟨some "secret-key", none, bodyNoEmailW⟩ tokOkW parseW gqlOkW "secret-key"
    rfl (by decide) rfl (Or.inl rfl)

/-- C1: for an authenticated request that passes validation, with a
successful token exchange, a line-item mapping that does not throw (which
is what lets the mutation request be sent at all), and an OK mutation
response whose parsed body carries a draft order and no non-empty
`userErrors` array, the handler answers 200 with exactly the `id` and
`invoiceUrl` strings of the mutation response as `draft_order_id` and
`invoice_url`. -/
theorem create_draft_order_success (cfg : Config) (req : Request)
    (tokenResp : TokenResponse) (jsonParse : String → Except String JsValue)
    (gqlResp : GraphqlResponse) (s : String) (its mapped : List JsValue)
    (tok data dData dCreate draft : JsValue) (draftId invoiceUrl : String)
    (hc : cfg.inboundApiKey = some s) (hs : s ≠ "")
    (hk : req.xApiKey = some s)
    (he : truthy (optChainGet (getField req.body "customer") "email") = true)
    (ha : truthy (optChainGet (getField req.body "shipping_address") "address1") = true)
    (hi : getField req.body "items" = .arr its) (hne : its ≠ [])
    (hmap : mapLineItemsT its = .ok mapped)
    (htok : getShopifyAccessToken cfg tokenResp jsonParse = .ok tok)
    (hok : gqlResp.ok = true)
    (hjson : gqlResp.jsonResult = .ok data)
    (hue : isNonEmptyArray (optChainGet (optChainGet (optChainGet data "data")
      "draftOrderCreate") "userErrors") = false)
    (h1 : getFieldT data "data" = .ok dData)
    (h2 : getFieldT dData "draftOrderCreate" = .ok dCreate)
    (h3 : getFieldT dCreate "draftOrder" = .ok draft)
    (h4 : getFieldT draft "id" = .ok (.str draftId))
    (h5 : getFieldT draft "invoiceUrl" = .ok (.str invoiceUrl)) :
    (createDraftOrderHandler cfg req tokenResp jsonParse gqlResp).fst =
      ⟨200, .obj [("draft_order_id", .str draftId),
                  ("invoice_url", .str invoiceUrl)]⟩ := by
  rw [handler_valid_unfold cfg req tokenResp jsonParse gqlResp s its hc hs hk
    he ha hi hne]
  unfold afterValidation
  rw [htok, hmap, hjson]
  simp only [hok, hue, Bool.not_true, Bool.false_or, if_false]
  simp [successBody, h1, h2, h3, h4, h5, Except.bind, bind, Functor.map,
    Except.map, pure, Except.pure]

/-- Witness for C1: the fixture request against the fixture responses. -/
theorem create_draft_order_success_witness :
    (createDraftOrderHandler cfgW reqW tokOkW parseW gqlOkW).fst =
      ⟨200, .obj [("draft_order_id", .str "gid-draft-1"),
                  ("invoice_url", .str "https-invoice-1")]⟩ :=
  create_draft_order_success cfgW reqW tokOkW parseW gqlOkW "secret-key"
    itemsW _ (.str "shpat-token") dataW (.obj [("draftOrderCreate", dCreateW)])
    dCreateW draftW "gid-draft-1" "https-invoice-1" rfl (by decide) rfl rfl rfl
    rfl (by simp [itemsW]) rfl rfl rfl rfl rfl rfl rfl rfl rfl rfl

/-- C4: for an authenticated, valid request with a successful token
exchange and a parsed mutation body, a non-OK response or a non-empty
`userErrors` array yields status 400 with `details` equal to the
`userErrors` value when it is not nullish (in particular, the non-empty
error array itself) and to the whole parsed body when `userErrors` is
absent. -/
theorem upstream_errors_return_400_with_details (cfg : Config) (req : Request)
    (tokenResp : TokenResponse) (jsonParse : String → Except String JsValue)
    (gqlResp : GraphqlResponse) (s : String) (its mapped : List JsValue)
    (tok data : JsValue)
    (hc : cfg.inboundApiKey = some s) (hs : s ≠ "")
    (hk : req.xApiKey = some s)
    (he : truthy (optChainGet (getField req.body "customer") "email") = true)
    (ha : truthy (optChainGet (getField req.body "shipping_address") "address1") = true)
    (hi : getField req.body "items" = .arr its) (hne : its ≠ [])
    (hmap : mapLineItemsT its = .ok mapped)
    (htok : getShopifyAccessToken cfg tokenResp jsonParse = .ok tok)
    (hjson : gqlResp.jsonResult = .ok data)
    (hbad : gqlResp.ok = false ∨
      isNonEmptyArray (optChainGet (optChainGet (optChainGet data "data")
        "draftOrderCreate") "userErrors") = true) :
    (createDraftOrderHandler cfg req tokenResp jsonParse gqlResp).fst =
      ⟨400, .obj [("error", .str "Shopify error creating draft order"),
        ("details", nullishCoalesce (optChainGet (optChainGet
          (optChainGet data "data") "draftOrderCreate") "userErrors") data)]⟩ := by
  rw [handler_valid_unfold cfg req tokenResp jsonParse gqlResp s its hc hs hk
    he ha hi hne]
  unfold afterValidation
  rw [htok, hmap, hjson]
  rcases hbad with hb | hb <;> simp [hb]

/-- A mutation response reporting one field-level user error. -/
def dataErrW : JsValue :=
  .obj [("data", .obj [("draftOrderCreate",
    .obj [("draftOrder", .null),
          ("userErrors", .arr [.obj [("field", .str "email"),
                                     ("message", .str "is invalid")]])])])]

/-- The erring mutation response, delivered with HTTP 200. -/
def gqlErrW : GraphqlResponse := ⟨true, .ok dataErrW⟩

/-- Witness for C4: the reported error array is passed through in
`details`. -/
theorem upstream_errors_return_400_with_details_witness :
    (createDraftOrderHandler cfgW reqW tokOkW parseW gqlErrW).fst =
      ⟨400, .obj [("error", .str "Shopify error creating draft order"),
        ("details", .arr [.obj [("field", .str "email"),
                                ("message", .str "is invalid")]])]⟩ :=
  upstream_errors_return_400_with_details cfgW reqW tokOkW parseW gqlErrW
    "secret-key" itemsW _ (.str "shpat-token") dataErrW rfl (by decide) rfl rfl
    rfl rfl (by simp [itemsW]) rfl rfl rfl (Or.inr rfl)

/-- C9: validation never inspects the items themselves: with the upstream
credentials configured, any authenticated request whose `items` is a
non-empty array reaches the token exchange, whatever the elements are; when
the exchange succeeds and the per-item mapping does not throw (it throws
only on nullish elements), the mutation is called with the mapped items;
and an empty item object maps without throwing to an undefined `title`,
quantity 1 and the string `"undefined"` as `originalUnitPrice` (the price
is stringified unconditionally). -/
theorem items_not_inspected (cfg : Config) (req : Request)
    (tokenResp : TokenResponse) (jsonParse : String → Except String JsValue)
    (gqlResp : GraphqlResponse) (s : String) (its : List JsValue)
    (hc : cfg.inboundApiKey = some s) (hs : s ≠ "")
    (hk : req.xApiKey = some s)
    (he : truthy (optChainGet (getField req.body "customer") "email") = true)
    (ha : truthy (optChainGet (getField req.body "shipping_address") "address1") = true)
    (hi : getField req.body "items" = .arr its) (hne : its ≠ [])
    (hd1 : falsyOptStr cfg.shopDomain = false)
    (hd2 : falsyOptStr cfg.clientId = false)
    (hd3 : falsyOptStr cfg.clientSecret = false) :
    OutboundCall.tokenExchange ∈
      (createDraftOrderHandler cfg req tokenResp jsonParse gqlResp).snd ∧
    (∀ (tok : JsValue) (mapped : List JsValue),
      getShopifyAccessToken cfg tokenResp jsonParse = .ok tok →
      mapLineItemsT its = .ok mapped →
      (createDraftOrderHandler cfg req tokenResp jsonParse gqlResp).snd =
        [OutboundCall.tokenExchange,
         OutboundCall.createOrder (buildVariables (getField req.body "customer")
           (getField req.body "shipping_address")
           (undefDefault (getField req.body "note") (.str ""))
           (undefDefault (getField req.body "tags") (.arr []))
           mapped)]) ∧
    mapLineItemT (.obj []) =
      .ok (.obj [("title", .undefined), ("quantity", .num 1),
            ("originalUnitPrice", .str "undefined")]) := by
  rw [handler_valid_unfold cfg req tokenResp jsonParse gqlResp s its hc hs hk
    he ha hi hne]
  refine ⟨afterValidation_mem_tokenExchange cfg _ _ _ _ its tokenResp
    jsonParse gqlResp (by simp [shopifyEnvMissing, hd1, hd2, hd3]),
    fun tok mapped htok hmap => afterValidation_snd_token_ok cfg _ _ _ _
    its tokenResp jsonParse gqlResp tok mapped htok hmap, ?_⟩
  simp [mapLineItemT, getFieldT, getField, bind, Except.bind, pure,
    Except.pure, nullishCoalesce, jsToString]

/-- A well-formed body whose single item is the empty object. -/
def bodyBareItemW : JsValue :=
  .obj [("customer", .obj [("email", .str "buyer@example.com")]),
        ("shipping_address", .obj [("address1", .str "1 Main St")]),
        ("items", .arr [.obj []])]

/-- Witness for C9: an item without title and price passes validation and
is forwarded stringified. -/
theorem items_not_inspected_witness :
    OutboundCall.tokenExchange ∈
      (createDraftOrderHandler cfgW ⟨some "secret-key", none, bodyBareItemW⟩
        tokOkW parseW gqlOkW).snd ∧
    mapLineItemT (.obj []) =
      .ok (.obj [("title", .undefined), ("quantity", .num 1),
            ("originalUnitPrice", .str "undefined")]) := by
  have h := items_not_inspected cfgW ⟨some "secret-key", none, bodyBareItemW⟩
    tokOkW parseW gqlOkW "secret-key" [.obj []] rfl (by decide) rfl rfl rfl rfl
    (by simp) rfl rfl rfl
  exact ⟨h.1, h.2.2⟩

/-- Rebuilding a string from its character list is the identity. -/
lemma strMk_data (s : String) : String.mk s.data = s := by
  cases s
  rfl

/-- C10: in the intermediate revision, a truthy `X-Api-Key` always wins
over whatever the `Authorization` header holds, and a request whose derived
key is empty is rejected by `requireApiKey` with the 401 response for every
configured secret, the empty one included. -/
theorem provided_key_precedence_and_empty_rejected :
    (∀ (k : String) (a : Option String), k ≠ "" → getProvidedKey (some k) a = k) ∧
    (∀ (inbound x a : Option String), getProvidedKey x a = "" →
      requireApiKey inbound x a =
        (false, some ⟨401, .obj [("error", .str "Unauthorized")]⟩)) := by
  constructor
  · intro k a hk
    simp [getProvidedKey, hk]
  · intro inbound x a h
    simp [requireApiKey, h]

/-- Witness for C10: precedence with both headers present, and rejection
of an empty derived key against an empty configured secret. -/
theorem provided_key_precedence_and_empty_rejected_witness :
    getProvidedKey (some "key-a") (some "Bearer key-b") = "key-a" ∧
    requireApiKey (some "") none none =
      (false, some ⟨401, .obj [("error", .str "Unauthorized")]⟩) :=
  ⟨provided_key_precedence_and_empty_rejected.1 "key-a"
     (some "Bearer key-b") (by decide),
   provided_key_precedence_and_empty_rejected.2 (some "") none none rfl⟩

/-- Counterexample to C7 as stated: in the final revision a request whose
only credential is `Authorization: Bearer secret-key`, with exactly that
secret configured, is rejected with 401 instead of being accepted. -/
theorem bearer_rejected_final_revision_counterexample :
    cfgW.inboundApiKey = some "secret-key" ∧
    createDraftOrderHandler cfgW ⟨none, some "Bearer secret-key", bodyW⟩
        tokOkW parseW gqlOkW =
      (⟨401, .obj [("error", .str "Unauthorized")]⟩, []) :=
  ⟨rfl, rfl⟩

/-- C7 (amended): the final revision reads only `X-Api-Key`, so a request
carrying the configured secret solely as a bearer token is rejected with
401 and no outbound call; `Authorization: Bearer` is accepted, equivalently
to `X-Api-Key`, only in the intermediate revision's `requireApiKey`. -/
theorem bearer_auth_by_revision (cfg : Config) (req : Request)
    (tokenResp : TokenResponse) (jsonParse : String → Except String JsValue)
    (gqlResp : GraphqlResponse) (s : String)
    (hc : cfg.inboundApiKey = some s) (hs : s ≠ "")
    (hx : req.xApiKey = none) :
    createDraftOrderHandler cfg req tokenResp jsonParse gqlResp =
      (⟨401, .obj [("error", .str "Unauthorized")]⟩, []) ∧
    (List.dropWhile isJsWhitespace s.data = s.data → trimStr s = s →
      requireApiKey (some s) none (some ("Bearer " ++ s)) = (true, none)) ∧
    (∀ a : Option String, requireApiKey (some s) (some s) a = (true, none)) := by
  refine ⟨?_, ?_, ?_⟩
  · apply handler_auth_reject
    rw [hc, hx]
    simp
  · intro h1 h2
    have hdata : ("Bearer " ++ s).data =
        'B' :: 'e' :: 'a' :: 'r' :: 'e' :: 'r' :: ' ' :: s.data := by
      rw [strData_append]
      rfl
    have hbearer : replaceBearer ("Bearer " ++ s) = s := by
      unfold replaceBearer
      rw [hdata]
      simp [matchBearerWs, isJsWhitespace, List.dropWhile, h1, strMk_data]
    simp [requireApiKey, getProvidedKey, hbearer, h2, hs, falsyOptStr]
  · intro a
    simp [requireApiKey, getProvidedKey, hs, falsyOptStr]

/-- Witness for C7 (amended): the fixture secret as a bearer token. -/
theorem bearer_auth_by_revision_witness :
    createDraftOrderHandler cfgW ⟨none, some "Bearer secret-key", bodyW⟩
        tokOkW parseW gqlOkW =
      (⟨401, .obj [("error", .str "Unauthorized")]⟩, []) ∧
    requireApiKey (some "secret-key") none (some "Bearer secret-key") =
      (true, none) := by
  have h := bearer_auth_by_revision cfgW
    ⟨none, some "Bearer secret-key", bodyW⟩ tokOkW parseW gqlOkW "secret-key"
    rfl (by decide) rfl
  exact ⟨h.1, h.2.1 rfl rfl⟩

/-- Counterexample to C5 as stated: a token response with OK status 200
and an HTML body makes `getShopifyAccessToken` throw the missing-token
error, whose message does not include the status. -/
theorem token_error_status_omitted_counterexample :
    getShopifyAccessToken cfgW ⟨200, some "text/html", "<html>error page</html>"⟩
        (fun _ => .ok .null) =
      .error "Error: Token missing access_token. contentType=text/html preview=<html>error page</html>" ∧
    strIncludes
      "Error: Token missing access_token. contentType=text/html preview=<html>error page</html>"
      (toString (200 : Nat)) = false :=
  ⟨rfl, by decide⟩

/-- C5 (amended): for a token-endpoint response whose declared content type
does not indicate JSON (with upstream credentials configured), the body is
read as text, JSON parsing is skipped (the result does not depend on the
parser), and a descriptive error is thrown that includes the truncated body
preview and, when the status is non-OK, the status; the relay endpoint
turns it into a structured 500 `Server error` response. -/
theorem token_non_json_defensive (cfg : Config) (req : Request)
    (tokenResp : TokenResponse) (gqlResp : GraphqlResponse) (s : String)
    (its : List JsValue)
    (hd1 : falsyOptStr cfg.shopDomain = false)
    (hd2 : falsyOptStr cfg.clientId = false)
    (hd3 : falsyOptStr cfg.clientSecret = false)
    (hct : strIncludes (tokenResp.contentType.getD "") "application/json" = false)
    (hc : cfg.inboundApiKey = some s) (hs : s ≠ "")
    (hk : req.xApiKey = some s)
    (he : truthy (optChainGet (getField req.body "customer") "email") = true)
    (ha : truthy (optChainGet (getField req.body "shipping_address") "address1") = true)
    (hi : getField req.body "items" = .arr its) (hne : its ≠ []) :
    (∀ p q : String → Except String JsValue,
      getShopifyAccessToken cfg tokenResp p = getShopifyAccessToken cfg tokenResp q) ∧
    (∀ p : String → Except String JsValue, ∃ msg : String,
      getShopifyAccessToken cfg tokenResp p = .error msg ∧
      strIncludes msg (sliceTo tokenResp.bodyText 200) = true ∧
      (tokenResp.ok = false → strIncludes msg (toString tokenResp.status) = true)) ∧
    (∀ p : String → Except String JsValue, ∃ d : JsValue,
      (createDraftOrderHandler cfg req tokenResp p gqlResp).fst =
        ⟨500, .obj [("error", .str "Server error"), ("details", d)]⟩) := by
  have key : ∀ p : String → Except String JsValue,
      getShopifyAccessToken cfg tokenResp p =
        if !tokenResp.ok then
          .error ("Error: Token request failed: status=" ++
            toString tokenResp.status ++ " contentType=" ++
            tokenResp.contentType.getD "" ++ " preview=" ++
            sliceTo tokenResp.bodyText 200)
        else
          .error ("Error: Token missing access_token. contentType=" ++
            tokenResp.contentType.getD "" ++ " preview=" ++
            sliceTo tokenResp.bodyText 200) := by
    intro p
    unfold getShopifyAccessToken
    simp [shopifyEnvMissing, hd1, hd2, hd3, hct, optChainGet, truthy]
  have keyF : tokenResp.ok = false → ∀ p : String → Except String JsValue,
      getShopifyAccessToken cfg tokenResp p =
        .error ("Error: Token request failed: status=" ++
          toString tokenResp.status ++ " contentType=" ++
          tokenResp.contentType.getD "" ++ " preview=" ++
          sliceTo tokenResp.bodyText 200) := by
    intro hok p
    rw [key p, hok]
    rfl
  have keyT : tokenResp.ok = true → ∀ p : String → Except String JsValue,
      getShopifyAccessToken cfg tokenResp p =
        .error ("Error: Token missing access_token. contentType=" ++
          tokenResp.contentType.getD "" ++ " preview=" ++
          sliceTo tokenResp.bodyText 200) := by
    intro hok p
    rw [key p, hok]
    rfl
  refine ⟨fun p q => by rw [key p, key q], fun p => ?_, fun p => ?_⟩
  · cases hok : tokenResp.ok
    · refine ⟨_, keyF hok p, strIncludes_append_right _ _, fun _ => ?_⟩
      simp only [strIncludes, strData_append, List.append_assoc]
      exact listContainsSub_append_mid _ _ _
    · exact ⟨_, keyT hok p, strIncludes_append_right _ _,
        fun h => Bool.noConfusion h⟩
  · rw [handler_valid_unfold cfg req tokenResp p gqlResp s its hc hs hk he ha
      hi hne]
    unfold afterValidation
    cases hok : tokenResp.ok
    · rw [keyF hok p]
      exact ⟨_, rfl⟩
    · rw [keyT hok p]
      exact ⟨_, rfl⟩

/-- A token response delivering an HTML maintenance page with status 503. -/
def tokHtmlW : TokenResponse := ⟨503, some "text/html", "<html>down</html>"⟩

/-- Witness for C5 (amended): the relay answers 500 on the HTML token
response. -/
theorem token_non_json_defensive_witness :
    (createDraftOrderHandler cfgW reqW tokHtmlW (fun _ => .ok .null)
      gqlOkW).fst.status = 500 := by
  obtain ⟨d, hd⟩ := (token_non_json_defensive cfgW reqW tokHtmlW gqlOkW
    "secret-key" itemsW rfl rfl rfl rfl rfl (by decide) rfl rfl rfl rfl
    (by simp [itemsW])).2.2 (fun _ => .ok .null)
  rw [hd]

/-- Counterexample to C6 as stated: a `country` field present with value
`null` does not pass through unchanged; the nullish-coalescing default
replaces it with the string `"US"`. -/
theorem null_country_defaulted_counterexample :
    getField (.obj [("address1", .str "1 Main St"), ("country", .null)])
      "country" = .null ∧
    getField (mapShippingAddress (.obj [("address1", .str "1 Main St"),
      ("country", .null)])) "country" = .str "US" ∧
    JsValue.str "US" ≠ JsValue.null :=
  ⟨rfl, rfl, by simp⟩

lemma nullishCoalesce_of_nullish (v d : JsValue)
    (h : v = .undefined ∨ v = .null) : nullishCoalesce v d = d := by
  rcases h with rfl | rfl <;> rfl

lemma nullishCoalesce_of_not_nullish (v d : JsValue)
    (h1 : v ≠ .undefined) (h2 : v ≠ .null) : nullishCoalesce v d = v := by
  cases v <;> simp_all [nullishCoalesce]

/-- Behaviour of a `??`-defaulted optional shipping field. -/
lemma optional_field_spec (sa : JsValue) (f : String)
    (hf : getField (mapShippingAddress sa) f =
      nullishCoalesce (getField sa f) (.str "")) :
    ((getField sa f = .undefined ∨ getField sa f = .null) →
      getField (mapShippingAddress sa) f = .str "") ∧
    (∀ v, getField sa f = v → v ≠ .undefined → v ≠ .null →
      getField (mapShippingAddress sa) f = v) := by
  refine ⟨fun h => ?_, fun v hv h1 h2 => ?_⟩
  · rw [hf]
    exact nullishCoalesce_of_nullish _ _ h
  · rw [hf, hv]
    exact nullishCoalesce_of_not_nullish v _ h1 h2

/-- C6 (amended): the defaults follow nullish coalescing for the mapped
fields of each successfully mapped (necessarily non-nullish) item and of
the shipping address — quantity 1 and country `"US"` when the field is
absent or null, empty strings for the other absent-or-null optional address
fields — while `title` and `address1` always pass through; a present
non-undefined, non-null value passes through unchanged; `price` is
forwarded as its string rendering; `tags` and `note` are defaulted (to `[]`
and `""`) only when undefined, by the destructuring defaults; the mutation
payload of a valid authenticated request is built from exactly these
mappings, and when the per-item mapping throws (a nullish item element) the
handler answers 500 with the `TypeError` and never calls the mutation. -/
theorem field_mapping_defaults (cfg : Config) (req : Request)
    (tokenResp : TokenResponse) (jsonParse : String → Except String JsValue)
    (gqlResp : GraphqlResponse) (s : String) (its : List JsValue) (tok : JsValue)
    (hc : cfg.inboundApiKey = some s) (hs : s ≠ "")
    (hk : req.xApiKey = some s)
    (he : truthy (optChainGet (getField req.body "customer") "email") = true)
    (ha : truthy (optChainGet (getField req.body "shipping_address") "address1") = true)
    (hi : getField req.body "items" = .arr its) (hne : its ≠ [])
    (htok : getShopifyAccessToken cfg tokenResp jsonParse = .ok tok) :
    (∀ it m, mapLineItemT it = .ok m →
      (getField it "quantity" = .undefined ∨ getField it "quantity" = .null) →
      getField m "quantity" = .num 1) ∧
    (∀ it m v, mapLineItemT it = .ok m → getField it "quantity" = v →
      v ≠ .undefined → v ≠ .null → getField m "quantity" = v) ∧
    (∀ it m, mapLineItemT it = .ok m → getField m "title" = getField it "title") ∧
    (∀ it m, mapLineItemT it = .ok m →
      getField m "originalUnitPrice" = .str (jsToString (getField it "price"))) ∧
    (∀ sa, (getField sa "country" = .undefined ∨ getField sa "country" = .null) →
      getField (mapShippingAddress sa) "country" = .str "US") ∧
    (∀ sa v, getField sa "country" = v → v ≠ .undefined → v ≠ .null →
      getField (mapShippingAddress sa) "country" = v) ∧
    (∀ sa f, f ∈ (["firstName", "lastName", "address2", "city", "province",
        "zip", "phone"] : List String) →
      ((getField sa f = .undefined ∨ getField sa f = .null) →
        getField (mapShippingAddress sa) f = .str "") ∧
      (∀ v, getField sa f = v → v ≠ .undefined → v ≠ .null →
        getField (mapShippingAddress sa) f = v)) ∧
    (∀ sa, getField (mapShippingAddress sa) "address1" = getField sa "address1") ∧
    (∀ d, undefDefault .undefined d = d) ∧
    (∀ v d, v ≠ .undefined → undefDefault v d = v) ∧
    (∀ mapped, mapLineItemsT its = .ok mapped →
      (createDraftOrderHandler cfg req tokenResp jsonParse gqlResp).snd =
        [OutboundCall.tokenExchange,
         OutboundCall.createOrder (buildVariables (getField req.body "customer")
           (getField req.body "shipping_address")
           (undefDefault (getField req.body "note") (.str ""))
           (undefDefault (getField req.body "tags") (.arr []))
           mapped)]) ∧
    (∀ e, mapLineItemsT its = .error e →
      createDraftOrderHandler cfg req tokenResp jsonParse gqlResp =
        (⟨500, .obj [("error", .str "Server error"), ("details", .str e)]⟩,
         [OutboundCall.tokenExchange])) := by
  refine ⟨fun it m hm h => ?_, fun it m v hm hv h1 h2 => ?_,
    fun it m hm => ?_, fun it m hm => ?_,
    fun sa h => ?_, fun sa v hv h1 h2 => ?_, fun sa f hf => ?_, fun sa => rfl,
    fun d => rfl, fun v d h => ?_, fun mapped hmap => ?_, fun e hmap => ?_⟩
  · rw [mapLineItemT_ok_shape it m hm]
    exact nullishCoalesce_of_nullish _ _ h
  · rw [mapLineItemT_ok_shape it m hm, hv]
    exact nullishCoalesce_of_not_nullish v _ h1 h2
  · rw [mapLineItemT_ok_shape it m hm]
    rfl
  · rw [mapLineItemT_ok_shape it m hm]
    rfl
  · rw [show getField (mapShippingAddress sa) "country" =
      nullishCoalesce (getField sa "country") (.str "US") from rfl]
    exact nullishCoalesce_of_nullish _ _ h
  · rw [show getField (mapShippingAddress sa) "country" =
      nullishCoalesce (getField sa "country") (.str "US") from rfl, hv]
    exact nullishCoalesce_of_not_nullish v _ h1 h2
  · simp only [List.mem_cons, List.mem_singleton, List.not_mem_nil,
      or_false] at hf
    rcases hf with rfl | rfl | rfl | rfl | rfl | rfl | rfl <;>
      exact optional_field_spec sa _ rfl
  · cases v <;> simp_all [undefDefault]
  · rw [handler_valid_unfold cfg req tokenResp jsonParse gqlResp s its hc hs hk
      he ha hi hne]
    exact afterValidation_snd_token_ok cfg _ _ _ _ its tokenResp jsonParse
      gqlResp tok mapped htok hmap
  · rw [handler_valid_unfold cfg req tokenResp jsonParse gqlResp s its hc hs hk
      he ha hi hne]
    exact afterValidation_map_error cfg _ _ _ _ its tokenResp jsonParse
      gqlResp tok e htok hmap

/-- Witness for C6 (amended): an address without a country maps to `"US"`
and an item without a quantity maps, without throwing, to quantity 1. -/
theorem field_mapping_defaults_witness :
    getField (mapShippingAddress (.obj [("address1", .str "1 Main St")]))
      "country" = .str "US" ∧
    ∃ m, mapLineItemT (.obj [("title", .str "Lens"), ("price", .num 150)]) =
        .ok m ∧
      getField m "quantity" = .num 1 := by
  have h := field_mapping_defaults cfgW reqW tokOkW parseW gqlOkW "secret-key"
    itemsW (.str "shpat-token") rfl (by decide) rfl rfl rfl rfl
    (by simp [itemsW]) rfl
  exact ⟨h.2.2.2.2.1 (.obj [("address1", .str "1 Main St")]) (Or.inl rfl),
    _, rfl,
    h.1 (.obj [("title", .str "Lens"), ("price", .num 150)]) _ rfl
      (Or.inl rfl)⟩

end GdoOrderApi

